import Mathlib

/-!
Shallow embedding of the waitlist card component
(`src/src/components/WaitlistModal.tsx`) of the vibe-app-waitlist
repository, together with theorems checking the natural-language
specification against it.

Modelling conventions:
* React `useState` values and the `turnstileWidgetIdRef` ref are collected
  into a `State` record; props are collected into a `Config` record.
* JavaScript string truthiness (`undefined`/`""` falsy) is `truthy` on
  `Option String`.
* JavaScript objects built by literal/spread with string keys become
  association lists built in assignment order; lookups use `getKey`.
  The claims checked here only exercise configurations whose dynamic
  honeypot key does not collide with the fixed keys, where this agrees
  with JavaScript's later-assignment-wins semantics.
* The async submission path is modelled by passing in the outcome of the
  single `fetch` (`FetchResult`) and the availability of the
  `window.turnstile` global (`tw : Bool`); the handler returns the new
  state plus a record of the externally observable effects.
-/

namespace Waitlist

/-- JavaScript truthiness of an optional string prop or state value:
`undefined`/`null` and `""` are falsy. -/
def truthy : Option String → Bool
  | none => false
  | some s => !s.data.isEmpty

/-- JavaScript `!s.trim()`: the string trims to empty exactly when every
character is whitespace. -/
def isBlank (s : String) : Bool := s.data.all Char.isWhitespace

/-- The component props that the submission/validation logic reads
(`WaitlistCardProps`, destructured at lines 89-124). `hasOnSubmit`
records whether the `onSubmit` prop was supplied. -/
structure Config where
  actionUrl : Option String
  hasOnSubmit : Bool
  isSuccessProp : Option Bool
  isSubmittingProp : Option Bool
  tags : Option String
  honeypotFieldName : Option String
  turnstileSiteKey : Option String
  turnstileManaged : Bool
deriving Repr, DecidableEq

/-- The per-field error map (`errors` state, lines 138-143). Keys are
only present when an error was assigned, so each field is optional. -/
structure Errors where
  FNAME : Option String
  LNAME : Option String
  EMAIL : Option String
  turnstile : Option String
deriving Repr, DecidableEq

/-- The empty error map (`{}`). -/
def noErrors : Errors := ⟨none, none, none, none⟩

/-- The check `Object.keys(newErrors).length === 0` (line 306): keys are assigned
only when an error exists, so the map is empty iff every field is `none`. -/
def Errors.isEmpty (e : Errors) : Bool :=
  e.FNAME.isNone && e.LNAME.isNone && e.EMAIL.isNone && e.turnstile.isNone

/-- The component state read and written by the handlers: form fields
(lines 134-136), honeypot value (line 146), error map, turnstile token
(line 149), the widget-id ref (line 150) and the internal uncontrolled
flags (lines 130-131, 137). -/
structure State where
  FNAME : String
  LNAME : String
  EMAIL : String
  honeypotValue : String
  errors : Errors
  turnstileToken : Option String
  widgetId : Option String
  internalIsSubmitting : Bool
  internalIsSuccess : Bool
  showToast : Bool
deriving Repr, DecidableEq

/-- The resolver `isControlled` (lines 126-127): both `onSubmit` and `isSuccess`
props must be supplied. -/
def isControlled (cfg : Config) : Bool :=
  cfg.hasOnSubmit && cfg.isSuccessProp.isSome

/-- Derived `isSubmitting` (lines 157-159): in controlled mode the
`isSubmitting` prop with `?? false`, otherwise the internal flag. -/
def isSubmittingOf (cfg : Config) (st : State) : Bool :=
  if isControlled cfg then cfg.isSubmittingProp.getD false
  else st.internalIsSubmitting

/-- Derived `isSuccess` (line 160). In controlled mode the prop is
present by definition of `isControlled`; `getD false` is the match arm
for the (unreachable there) `none` case. -/
def isSuccessOf (cfg : Config) (st : State) : Bool :=
  if isControlled cfg then cfg.isSuccessProp.getD false
  else st.internalIsSuccess

/-- Character class `[^\s@]` of the email pattern (line 296). -/
def isEmailChar (c : Char) : Bool := !c.isWhitespace && c != '@'

/-- Split a character list on occurrences of `@` (the char-level analogue
of `s.split("@")`). -/
def splitOnAt : List Char → List (List Char)
  | [] => [[]]
  | c :: l =>
      if c = '@' then [] :: splitOnAt l
      else
        match splitOnAt l with
        | [] => [[c]]
        | a :: t => (c :: a) :: t

/-- The domain part `[^\s@]+\.[^\s@]+` needs a dot with a nonempty
segment on each side, i.e. a `.` somewhere strictly inside the list. -/
def hasMidDot (d : List Char) : Bool := ((d.drop 1).dropLast).contains '.'

/-- The test `/^[^\s@]+@[^\s@]+\.[^\s@]+$/.test(EMAIL)` (line 296):
exactly one `@`; a nonempty local part of non-whitespace non-`@`
characters; a domain of non-whitespace non-`@` characters containing a
dot with nonempty segments on both sides. -/
def emailRegexTest (s : String) : Bool :=
  match splitOnAt s.data with
  | [l, d] => !l.isEmpty && l.all isEmailChar && d.all isEmailChar && hasMidDot d
  | _ => false

/-- The `newErrors` map computed by `validateForm` (lines 284-303). -/
def computeErrors (cfg : Config) (st : State) : Errors where
  FNAME := if isBlank st.FNAME then some "First name is required" else none
  LNAME := if isBlank st.LNAME then some "Last name is required" else none
  EMAIL :=
    if isBlank st.EMAIL then some "Email address is required"
    else if emailRegexTest st.EMAIL then none
    else some "Please enter a valid email address"
  turnstile :=
    if truthy cfg.turnstileSiteKey && !truthy st.turnstileToken
        && !cfg.turnstileManaged then
      some "Please complete the verification"
    else none

/-- Validation, `validateForm` (lines 278-307): a truthy honeypot field name with a
non-blank honeypot value returns `false` before `setErrors` runs;
otherwise the freshly computed error map replaces the old one wholesale
and the result is its emptiness. -/
def validateForm (cfg : Config) (st : State) : Bool × State :=
  if truthy cfg.honeypotFieldName && !isBlank st.honeypotValue then
    (false, st)
  else
    let e := computeErrors cfg st
    (e.isEmpty, { st with errors := e })

/-- Reset, `resetTurnstile` (lines 309-314): only acts when a widget id is held
(truthy ref) and the `window.turnstile` global (`tw`) is present. The
returned `Bool` records whether `turnstile.reset` was called. -/
def resetTurnstile (tw : Bool) (st : State) : State × Bool :=
  if truthy st.widgetId && tw then
    ({ st with turnstileToken := none }, true)
  else (st, false)

/-- First-match lookup in an association list with string keys. -/
def getKey (k : String) : List (String × String) → Option String
  | [] => none
  | (a, v) :: l => if a = k then some v else getKey k l

/-- A conditionally added fixed-key entry, `...(x && { k: x })` or
`if (x) o.k = x`: present exactly when the value is truthy. -/
def optEntry (k : String) : Option String → List (String × String)
  | none => []
  | some v => if v.data.isEmpty then [] else [(k, v)]

/-- The conditionally added dynamically-keyed honeypot entry,
`...(name && { [name]: v })`: present exactly when the name is truthy. -/
def dynEntry (name : Option String) (v : String) : List (String × String) :=
  match name with
  | none => []
  | some h => if h.data.isEmpty then [] else [(h, v)]

/-- The `formData` object handed to `onSubmit` (lines 323-329): the
three fixed fields, then a spread for the turnstile token when truthy,
then a spread for the honeypot field when its name is truthy. -/
def formData (cfg : Config) (st : State) : List (String × String) :=
  [("EMAIL", st.EMAIL), ("FNAME", st.FNAME), ("LNAME", st.LNAME)]
    ++ optEntry "cf-turnstile-response" st.turnstileToken
    ++ dynEntry cfg.honeypotFieldName st.honeypotValue

/-- The `submitData` object POSTed in uncontrolled mode (lines 341-360):
fixed fields, then `tags` when truthy, then the token, then the
honeypot field. -/
def submitData (cfg : Config) (st : State) : List (String × String) :=
  [("EMAIL", st.EMAIL), ("FNAME", st.FNAME), ("LNAME", st.LNAME)]
    ++ optEntry "tags" cfg.tags
    ++ optEntry "cf-turnstile-response" st.turnstileToken
    ++ dynEntry cfg.honeypotFieldName st.honeypotValue

/-- Outcome of the single `fetch` in uncontrolled mode: a 2xx response,
a non-2xx response (`!response.ok`, thrown at line 369), or the fetch
promise itself rejecting. -/
inductive FetchResult
  | success
  | httpFail
  | netFail
deriving Repr, DecidableEq

/-- The observable result of one `handleSubmit` run: the new state,
the payload passed to the host `onSubmit` callback (if invoked), the
body handed to `fetch` (if a request was issued), and whether
`turnstile.reset` was called. -/
structure SubmitResult where
  state : State
  onSubmitPayload : Option (List (String × String))
  fetchedBody : Option (List (String × String))
  resetCalled : Bool
deriving Repr, DecidableEq

/-- Submission, `handleSubmit` (lines 316-386). `tw` is the availability of
`window.turnstile`; `fr` the outcome of the fetch when one happens.
Validation failure returns before any effect; controlled mode calls
`onSubmit` with `formData` and returns; uncontrolled mode sets the
submitting flag, performs the fetch (or the simulated delay when no
`actionUrl` is configured), on success sets the success flag and shows
the toast, on any failure resets the turnstile, and always clears the
submitting flag in `finally`. -/
def handleSubmit (cfg : Config) (tw : Bool) (fr : FetchResult)
    (st : State) : SubmitResult :=
  let v := validateForm cfg st
  if !v.1 then
    ⟨v.2, none, none, false⟩
  else if isControlled cfg then
    ⟨v.2, some (formData cfg st), none, false⟩
  else
    let st2 := { v.2 with internalIsSubmitting := true }
    if truthy cfg.actionUrl then
      let sd := submitData cfg st
      match fr with
      | .success =>
          ⟨{ st2 with
              internalIsSuccess := true
              showToast := true
              internalIsSubmitting := false }, none, some sd, false⟩
      | .httpFail =>
          let r := resetTurnstile tw st2
          ⟨{ r.1 with internalIsSubmitting := false }, none, some sd, r.2⟩
      | .netFail =>
          let r := resetTurnstile tw st2
          ⟨{ r.1 with internalIsSubmitting := false }, none, some sd, r.2⟩
    else
      ⟨{ st2 with
          internalIsSuccess := true
          showToast := true
          internalIsSubmitting := false }, none, none, false⟩

/-- The observable result of `handleDone`: the new state, whether the
`onDone` callback fired, and whether `turnstile.reset` was called. -/
structure DoneResult where
  state : State
  onDoneCalled : Bool
  resetCalled : Bool
deriving Repr, DecidableEq

/-- Acknowledgment, `handleDone` (lines 388-404): guarded by `!isSubmitting`; clears the
four field values and the whole error map, calls `resetTurnstile`, in
uncontrolled mode clears the internal success flag, then calls
`onDone`. -/
def handleDone (cfg : Config) (tw : Bool) (st : State) : DoneResult :=
  if isSubmittingOf cfg st then ⟨st, false, false⟩
  else
    let st1 := { st with
      FNAME := ""
      LNAME := ""
      EMAIL := ""
      honeypotValue := ""
      errors := noErrors }
    let r := resetTurnstile tw st1
    let st3 :=
      if !isControlled cfg then { r.1 with internalIsSuccess := false }
      else r.1
    ⟨st3, true, r.2⟩

/-- Widget success callback, `handleTurnstileSuccess` (lines 163-166): store the token and clear
only the turnstile entry of the error map. -/
def handleTurnstileSuccess (token : String) (st : State) : State :=
  { st with
    turnstileToken := some token
    errors := { st.errors with turnstile := none } }

/-- Widget error callback, `handleTurnstileError` (lines 168-174): drop the token and set the
turnstile entry of the error map to the failure message. -/
def handleTurnstileError (st : State) : State :=
  { st with
    turnstileToken := none
    errors := { st.errors with
      turnstile := some "Verification failed. Please try again." } }

/-- Widget expiry callback, `handleTurnstileExpired` (lines 176-178): drop the token; the error
map is not touched. -/
def handleTurnstileExpired (st : State) : State :=
  { st with turnstileToken := none }

/-- Environment of the widget-initialisation effect (lines 181-251):
whether `window.turnstile` is loaded, whether the container ref is
attached, and the widget id that `turnstile.render` would return. -/
structure WidgetEnv where
  turnstileAvailable : Bool
  containerPresent : Bool
  renderedId : String
deriving Repr, DecidableEq

/-- Widget-acquisition state: the `turnstileWidgetIdRef` ref and a count
of `turnstile.render` calls performed so far. -/
structure WidgetState where
  widgetId : Option String
  rendered : Nat
deriving Repr, DecidableEq

/-- One run of `initTurnstile` (lines 191-214): render only when the
global is present, the container is attached, and no widget id is held
(a falsy ref); otherwise do nothing. -/
def initTurnstile (env : WidgetEnv) (s : WidgetState) : WidgetState :=
  if env.turnstileAvailable && env.containerPresent && !truthy s.widgetId then
    { widgetId := some env.renderedId, rendered := s.rendered + 1 }
  else s

/-- The `disabled` condition of the submit button (lines 587-590). -/
def submitButtonDisabled (cfg : Config) (st : State) : Bool :=
  isSubmittingOf cfg st
    || (truthy cfg.turnstileSiteKey && !truthy st.turnstileToken
        && !cfg.turnstileManaged)

/-- A honeypot field name that does not collide with the fixed payload
keys. The claims about the payload shape only concern such
configurations; the association-list embedding of the JavaScript object
agrees with later-assignment-wins semantics exactly there. -/
def honeypotNameSafe (cfg : Config) : Bool :=
  match cfg.honeypotFieldName with
  | none => true
  | some h =>
      !(["EMAIL", "FNAME", "LNAME", "cf-turnstile-response",
        "tags"] : List String).contains h

/-- A concrete uncontrolled configuration: action URL, tag, honeypot and
turnstile site key all set. -/
def sampleCfg : Config :=
  ⟨some "https://example.test/subscribe", false, none, none,
    some "11843736", some "b_field", some "sitekey", false⟩

/-- A concrete controlled configuration: `onSubmit` and `isSuccess`
supplied, nothing else. -/
def controlledCfg : Config :=
  ⟨none, true, some false, some false, none, none, none, false⟩

/-- A concrete bare uncontrolled configuration: no props at all. -/
def bareCfg : Config := ⟨none, false, none, none, none, none, none, false⟩

/-- A concrete filled-in valid form state with a verified token and a
live widget handle. -/
def sampleSt : State :=
  ⟨"Ann", "Lee", "user@example.com", "", noErrors, some "tok", some "w1",
    false, false, false⟩

/-- The state `sampleSt` with the hidden honeypot field filled in, as a bot would. -/
def botSt : State := { sampleSt with honeypotValue := "spam" }

/-- The state `sampleSt` with a non-empty but whitespace-only honeypot
value, which trims to empty. -/
def spacedBotSt : State := { sampleSt with honeypotValue := " " }

/-- The controlled configuration with a honeypot field configured. -/
def controlledHoneypotCfg : Config :=
  { controlledCfg with honeypotFieldName := some "b_field" }

/-- The state `sampleSt` while a submission is in flight. -/
def submittingSt : State := { sampleSt with internalIsSubmitting := true }

/-- A concrete widget environment: script loaded, container attached. -/
def sampleEnv : WidgetEnv := ⟨true, true, "w1"⟩

/-- The widget state of a freshly mounted component. -/
def freshWidget : WidgetState := ⟨none, 0⟩

/-! ## Helper lemmas -/

/-- The error map counts as empty exactly when every entry is `none`. -/
theorem errors_isEmpty_iff (e : Errors) : e.isEmpty = true ↔ e = noErrors := by
  cases e
  simp [Errors.isEmpty, noErrors, Option.isNone_iff_eq_none, and_assoc]

/-- A passing validation leaves the form fields alone and installs the
empty error map. -/
theorem validateForm_pass_state (cfg : Config) (st : State)
    (h : (validateForm cfg st).1 = true) :
    validateForm cfg st = (true, { st with errors := noErrors }) := by
  by_cases hc : (truthy cfg.honeypotFieldName && !isBlank st.honeypotValue)
      = true
  · simp [validateForm, hc] at h
  · rw [Bool.not_eq_true] at hc
    simp [validateForm, hc] at h
    have he : computeErrors cfg st = noErrors := (errors_isEmpty_iff _).mp h
    simp [validateForm, hc, he, noErrors, Errors.isEmpty]

/-- A nonempty string is truthy. -/
theorem truthy_some_iff (s : String) : truthy (some s) = true ↔ s ≠ "" := by
  cases s with
  | mk data =>
      cases data <;>
        simp [truthy, String.ext_iff]

/-! ## Claims -/

/-- C1 counterexample: the claim's abort condition is a non-empty
honeypot value, but line 280 checks the trimmed value — with the
honeypot configured and the value `" "` (non-empty at submit time) no
abort happens: validation passes, the uncontrolled submission issues
the network request and sets the success flag, and in controlled mode
the host callback is invoked. -/
theorem honeypot_space_submits_counterexample :
    spacedBotSt.honeypotValue = " " ∧
    truthy sampleCfg.honeypotFieldName = true ∧
    (handleSubmit sampleCfg true FetchResult.success
        spacedBotSt).fetchedBody
      = some (submitData sampleCfg spacedBotSt) ∧
    (handleSubmit sampleCfg true FetchResult.success
        spacedBotSt).state.internalIsSuccess = true ∧
    truthy controlledHoneypotCfg.honeypotFieldName = true ∧
    (handleSubmit controlledHoneypotCfg true FetchResult.success
        spacedBotSt).onSubmitPayload
      = some (formData controlledHoneypotCfg spacedBotSt) := by
  refine ⟨by decide, by decide, by decide, by decide, by decide, by decide⟩

/-- C1 (amended): whenever a honeypot field name is configured (truthy)
and the honeypot value is non-empty after trimming at submit time,
`handleSubmit` aborts silently regardless of every other prop, state
field and fetch outcome: the host `onSubmit` callback receives nothing,
no request body is handed to `fetch`, the turnstile widget is not
reset, and the state — field errors, verification token and
submission-status flags included — is returned entirely unchanged. A
non-empty but whitespace-only value does not trigger the abort (line
280 trims it). -/
theorem honeypot_submit_aborts_silently (cfg : Config) (tw : Bool)
    (fr : FetchResult) (st : State)
    (hname : truthy cfg.honeypotFieldName = true)
    (hval : isBlank st.honeypotValue = false) :
    handleSubmit cfg tw fr st = ⟨st, none, none, false⟩ := by
  simp [handleSubmit, validateForm, hname, hval]

/-- C1 witness: a concrete bot-filled state aborts silently. -/
theorem honeypot_submit_aborts_silently_witness :
    truthy sampleCfg.honeypotFieldName = true ∧
    isBlank botSt.honeypotValue = false ∧
    handleSubmit sampleCfg true FetchResult.success botSt =
      ⟨botSt, none, none, false⟩ :=
  ⟨by decide, by decide,
    honeypot_submit_aborts_silently sampleCfg true FetchResult.success botSt
      (by decide) (by decide)⟩

/-- C3: the mode resolver classifies the configuration as controlled
exactly when both the `onSubmit` callback and the explicit `isSuccess`
flag are supplied; supplying only one of the two yields uncontrolled
mode. The resolver is a total boolean function of the props, so no
configuration makes it raise an error. -/
theorem mode_resolver_controlled_iff (cfg : Config) :
    (isControlled cfg = true ↔
      cfg.hasOnSubmit = true ∧ cfg.isSuccessProp.isSome = true) ∧
    ((cfg.hasOnSubmit = true ∧ cfg.isSuccessProp = none) ∨
        (cfg.hasOnSubmit = false ∧ cfg.isSuccessProp.isSome = true) →
      isControlled cfg = false) := by
  constructor
  · simp [isControlled]
  · rintro (⟨h1, h2⟩ | ⟨h1, h2⟩) <;> simp [isControlled, h1, h2]

/-- C3 witness: a configuration supplying only the callback is resolved
as uncontrolled. -/
theorem mode_resolver_controlled_iff_witness :
    isControlled ⟨none, true, none, none, none, none, none, false⟩ = false :=
  (mode_resolver_controlled_iff _).2 (Or.inl ⟨rfl, rfl⟩)

/-- C9: widget acquisition is idempotent: while a (truthy) handle is
held, running `initTurnstile` changes nothing; and acquiring twice from
a fresh mount without an intervening teardown renders exactly once and
leaves exactly one live handle. -/
theorem widget_acquisition_idempotent (env env2 : WidgetEnv)
    (s : WidgetState) :
    (truthy s.widgetId = true → initTurnstile env s = s) ∧
    (s.widgetId = none → s.rendered = 0 →
      env.turnstileAvailable = true → env.containerPresent = true →
      env.renderedId ≠ "" →
      initTurnstile env2 (initTurnstile env s) =
        ⟨some env.renderedId, 1⟩) := by
  constructor
  · intro h
    simp [initTurnstile, h]
  · intro hid hr ha hc hne
    have h1 : initTurnstile env s = ⟨some env.renderedId, 1⟩ := by
      simp [initTurnstile, ha, hc, hid, truthy, hr]
    rw [h1]
    have h2 : truthy (some env.renderedId) = true :=
      (truthy_some_iff _).mpr hne
    simp [initTurnstile, h2]

/-- C9 witness: two acquisitions on a fresh mount in a loaded
environment yield one handle and one render. -/
theorem widget_acquisition_idempotent_witness :
    initTurnstile sampleEnv (initTurnstile sampleEnv freshWidget) =
      ⟨some "w1", 1⟩ :=
  (widget_acquisition_idempotent sampleEnv sampleEnv freshWidget).2
    rfl rfl rfl rfl (by decide)

/-- C10: the submit button is disabled whenever a turnstile site key is
configured, managed mode is off and no (truthy) token is held, and
whenever a submission is in flight; in particular it is disabled in
every state in which validation would produce the client-side
verification error, so that error cannot be triggered by an ordinary
click of the enabled button. -/
theorem submit_button_gating (cfg : Config) (st : State) :
    (truthy cfg.turnstileSiteKey = true → cfg.turnstileManaged = false →
      truthy st.turnstileToken = false →
      submitButtonDisabled cfg st = true) ∧
    (isSubmittingOf cfg st = true → submitButtonDisabled cfg st = true) ∧
    ((computeErrors cfg st).turnstile.isSome = true →
      submitButtonDisabled cfg st = true) := by
  refine ⟨fun h1 h2 h3 => ?_, fun h => ?_, fun h => ?_⟩
  · simp [submitButtonDisabled, h1, h2, h3]
  · simp [submitButtonDisabled, h]
  · simp only [computeErrors] at h
    split at h
    · rename_i hc
      simp only [Bool.and_eq_true, Bool.not_eq_true'] at hc
      simp [submitButtonDisabled, hc.1.1, hc.1.2, hc.2]
    · simp at h

/-- C10 witness: site key configured, no token, not managed — the button
is disabled in a concrete state. -/
theorem submit_button_gating_witness :
    submitButtonDisabled sampleCfg { sampleSt with turnstileToken := none }
      = true :=
  (submit_button_gating sampleCfg _).1 (by decide) (by decide) (by decide)

/-- The splitter `splitOnAt` never returns the empty list of fragments. -/
theorem splitOnAt_ne_nil (xs : List Char) : splitOnAt xs ≠ [] := by
  induction xs with
  | nil => simp [splitOnAt]
  | cons c l ih =>
      simp only [splitOnAt]
      split
      · simp
      · split <;> simp

/-- A single fragment means the input had no `@` at all. -/
theorem splitOnAt_eq_single (xs d : List Char) :
    splitOnAt xs = [d] ↔ xs = d ∧ '@' ∉ d := by
  induction xs generalizing d with
  | nil =>
      constructor
      · intro h
        obtain rfl : ([] : List Char) = d := by simpa [splitOnAt] using h
        simp
      · rintro ⟨rfl, -⟩
        simp [splitOnAt]
  | cons c l ih =>
      by_cases hc : c = '@'
      · subst hc
        constructor
        · intro h
          simp only [splitOnAt, if_pos rfl] at h
          obtain ⟨-, h2⟩ := by simpa using h
          exact absurd h2 (splitOnAt_ne_nil l)
        · rintro ⟨heq, hmem⟩
          exact absurd (heq ▸ List.mem_cons_self _ _) hmem
      · constructor
        · intro h
          simp only [splitOnAt, if_neg hc] at h
          cases hd : splitOnAt l with
          | nil => exact absurd hd (splitOnAt_ne_nil l)
          | cons a t =>
              rw [hd] at h
              obtain ⟨h1, h2⟩ := by simpa using h
              obtain ⟨h3, h4⟩ := (ih a).mp (by rw [hd, h2])
              subst h3
              refine ⟨by rw [h1], ?_⟩
              rw [← h1]
              simp only [List.mem_cons]
              rintro (h | h)
              · exact hc h.symm
              · exact h4 h
        · rintro ⟨heq, hmem⟩
          have hl : '@' ∉ l := by
            intro hm
            exact hmem (heq ▸ List.mem_cons_of_mem _ hm)
          have hs : splitOnAt l = [l] := (ih l).mpr ⟨rfl, hl⟩
          simp only [splitOnAt, if_neg hc, hs]
          rw [heq]

/-- Exactly two fragments mean the input decomposes as
`local ++ '@' :: domain` with no further `@` on either side. -/
theorem splitOnAt_eq_pair (xs l d : List Char) :
    splitOnAt xs = [l, d] ↔
      xs = l ++ '@' :: d ∧ '@' ∉ l ∧ '@' ∉ d := by
  induction xs generalizing l with
  | nil =>
      constructor
      · intro h
        simp [splitOnAt] at h
      · rintro ⟨h, -, -⟩
        exact absurd h (by simp)
  | cons c t ih =>
      by_cases hc : c = '@'
      · subst hc
        have hstep : splitOnAt ('@' :: t) = [] :: splitOnAt t := by
          simp [splitOnAt]
        constructor
        · intro h
          rw [hstep, List.cons.injEq] at h
          obtain ⟨h1, h2⟩ := h
          obtain ⟨h3, h4⟩ := (splitOnAt_eq_single t d).mp h2
          subst h3
          exact ⟨by rw [← h1]; rfl, by rw [← h1]; simp, h4⟩
        · rintro ⟨heq, hl, hd⟩
          have hl0 : l = [] := by
            cases l with
            | nil => rfl
            | cons x xs =>
                rw [List.cons_append, List.cons.injEq] at heq
                exact absurd (heq.1 ▸ List.mem_cons_self _ _) hl
          subst hl0
          rw [List.nil_append, List.cons.injEq] at heq
          obtain ⟨-, rfl⟩ := heq
          rw [hstep, (splitOnAt_eq_single t t).mpr ⟨rfl, hd⟩]
      · constructor
        · intro h
          simp only [splitOnAt, if_neg hc] at h
          cases hd : splitOnAt t with
          | nil => exact absurd hd (splitOnAt_ne_nil t)
          | cons a r =>
              rw [hd] at h
              obtain ⟨h1, h2⟩ := by simpa using h
              obtain ⟨h3, h4, h5⟩ := (ih a).mp (by rw [hd, h2])
              refine ⟨?_, ?_, h5⟩
              · rw [← h1, h3]
                rfl
              · rw [← h1]
                simp only [List.mem_cons]
                rintro (h | h)
                · exact hc h.symm
                · exact h4 h
        · rintro ⟨heq, hl, hd⟩
          cases l with
          | nil =>
              rw [List.nil_append, List.cons.injEq] at heq
              exact absurd heq.1 hc
          | cons x xs =>
              rw [List.cons_append, List.cons.injEq] at heq
              obtain ⟨rfl, ht⟩ := heq
              have hxs : '@' ∉ xs := fun hm =>
                hl (List.mem_cons_of_mem _ hm)
              have hs : splitOnAt t = [xs, d] :=
                (ih xs).mpr ⟨ht, hxs, hd⟩
              simp only [splitOnAt, if_neg hc, hs]

/-- Characterisation of the embedded email pattern: a string passes
exactly when it splits as a nonempty local part, a single literal `@`,
and a domain, where both parts use only non-whitespace non-`@`
characters and the domain has a dot with nonempty segments around it. -/
theorem emailRegexTest_iff (s : String) :
    emailRegexTest s = true ↔
      ∃ l d : List Char, s.data = l ++ '@' :: d ∧ l ≠ [] ∧
        l.all isEmailChar = true ∧ d.all isEmailChar = true ∧
        hasMidDot d = true := by
  constructor
  · intro h
    unfold emailRegexTest at h
    cases hsp : splitOnAt s.data with
    | nil => exact absurd hsp (splitOnAt_ne_nil _)
    | cons a r =>
        rw [hsp] at h
        cases r with
        | nil => simp at h
        | cons b r2 =>
            cases r2 with
            | nil =>
                simp only [Bool.and_eq_true, Bool.not_eq_true'] at h
                obtain ⟨⟨⟨h0, h1⟩, h2⟩, h3⟩ := h
                obtain ⟨he, -, -⟩ := (splitOnAt_eq_pair s.data a b).mp hsp
                refine ⟨a, b, he, ?_, h1, h2, h3⟩
                simpa [List.isEmpty_iff] using h0
            | cons e r3 => simp at h
  · rintro ⟨l, d, he, hl, hall, hdall, hmid⟩
    have h1 : '@' ∉ l := by
      intro hm
      have := List.all_eq_true.mp hall _ hm
      simp [isEmailChar] at this
    have h2 : '@' ∉ d := by
      intro hm
      have := List.all_eq_true.mp hdall _ hm
      simp [isEmailChar] at this
    have hsp : splitOnAt s.data = [l, d] :=
      (splitOnAt_eq_pair s.data l d).mpr ⟨he, h1, h2⟩
    unfold emailRegexTest
    rw [hsp]
    simp [List.isEmpty_iff, hl, hall, hdall, hmid]

/-- C4: the validator produces the verification error exactly when a
turnstile site key is configured (truthy), no truthy token is held and
managed mode is off; with managed mode on no verification error is ever
produced, token or not. The third conjunct ties the computed map to
`validateForm`: whenever the honeypot does not abort, the stored error
map is exactly this computed one. -/
theorem verification_error_condition (cfg : Config) (st : State) :
    ((computeErrors cfg st).turnstile.isSome =
      (truthy cfg.turnstileSiteKey && !truthy st.turnstileToken
        && !cfg.turnstileManaged)) ∧
    (cfg.turnstileManaged = true →
      (computeErrors cfg st).turnstile = none) ∧
    ((truthy cfg.honeypotFieldName && !isBlank st.honeypotValue) = false →
      (validateForm cfg st).2.errors = computeErrors cfg st) := by
  refine ⟨?_, fun hm => ?_, fun hnp => ?_⟩
  · by_cases h : (truthy cfg.turnstileSiteKey && !truthy st.turnstileToken
        && !cfg.turnstileManaged) = true
    · simp [computeErrors, h]
    · rw [Bool.not_eq_true] at h
      simp [computeErrors, h]
  · simp [computeErrors, hm]
  · simp [validateForm, hnp]

/-- C4 witness: managed mode with a site key and no token produces no
verification error, and the unmanaged counterpart produces one. -/
theorem verification_error_condition_witness :
    (computeErrors { sampleCfg with turnstileManaged := true }
      { sampleSt with turnstileToken := none }).turnstile = none :=
  (verification_error_condition _ _).2.1 rfl

/-- C5: the validator flags the email field exactly when the raw value
is blank or fails the embedded permissive pattern; the pattern holds
exactly of strings of the shape `local@domain` with a nonempty
whitespace-free `@`-free local part and a domain containing an interior
dot; and the four concrete examples of the specification behave as
stated. -/
theorem email_validation_rule (cfg : Config) (st : State) :
    ((computeErrors cfg st).EMAIL.isSome =
      (isBlank st.EMAIL || !emailRegexTest st.EMAIL)) ∧
    (emailRegexTest st.EMAIL = true ↔
      ∃ l d : List Char, st.EMAIL.data = l ++ '@' :: d ∧ l ≠ [] ∧
        l.all isEmailChar = true ∧ d.all isEmailChar = true ∧
        hasMidDot d = true) ∧
    (st.EMAIL = "not-an-email" →
      (computeErrors cfg st).EMAIL.isSome = true) ∧
    (st.EMAIL = "a@b" → (computeErrors cfg st).EMAIL.isSome = true) ∧
    (st.EMAIL = "a@b.c " → (computeErrors cfg st).EMAIL.isSome = true) ∧
    (st.EMAIL = "user@example.com" →
      (computeErrors cfg st).EMAIL = none) := by
  have hmain : (computeErrors cfg st).EMAIL.isSome =
      (isBlank st.EMAIL || !emailRegexTest st.EMAIL) := by
    by_cases h1 : isBlank st.EMAIL = true
    · simp [computeErrors, h1]
    · rw [Bool.not_eq_true] at h1
      by_cases h2 : emailRegexTest st.EMAIL = true
      · simp [computeErrors, h1, h2]
      · rw [Bool.not_eq_true] at h2
        simp [computeErrors, h1, h2]
  refine ⟨hmain, emailRegexTest_iff _, fun h => ?_, fun h => ?_,
    fun h => ?_, fun h => ?_⟩
  · rw [hmain, h]; decide
  · rw [hmain, h]; decide
  · rw [hmain, h]; decide
  · simp only [computeErrors]
    rw [h]
    decide

/-- C5 witness: a concrete state with `"a@b"` is flagged and one with
`"user@example.com"` is not. -/
theorem email_validation_rule_witness :
    (computeErrors bareCfg { sampleSt with EMAIL := "a@b" }).EMAIL.isSome
        = true ∧
    (computeErrors bareCfg sampleSt).EMAIL = none :=
  ⟨(email_validation_rule bareCfg _).2.2.2.1 rfl,
    (email_validation_rule bareCfg sampleSt).2.2.2.2.2 rfl⟩

/-- Full characterisation of the done action when no submission is in
flight: fields and errors cleared, token dropped and reset called just
when a truthy handle is held and the global is present, internal success
flag cleared only in uncontrolled mode. -/
theorem handleDone_not_submitting (cfg : Config) (tw : Bool) (st : State)
    (h : isSubmittingOf cfg st = false) :
    handleDone cfg tw st =
      ⟨{ st with
          FNAME := ""
          LNAME := ""
          EMAIL := ""
          honeypotValue := ""
          errors := noErrors
          turnstileToken :=
            if truthy st.widgetId && tw then none else st.turnstileToken
          internalIsSuccess :=
            if isControlled cfg then st.internalIsSuccess else false },
        true, truthy st.widgetId && tw⟩ := by
  by_cases hw : (truthy st.widgetId && tw) = true <;>
    by_cases hm : isControlled cfg = true
  · simp [handleDone, h, resetTurnstile, hw, hm]
  · rw [Bool.not_eq_true] at hm
    simp [handleDone, h, resetTurnstile, hw, hm]
  · rw [Bool.not_eq_true] at hw
    simp [handleDone, h, resetTurnstile, hw, hm]
  · rw [Bool.not_eq_true] at hw
    rw [Bool.not_eq_true] at hm
    simp [handleDone, h, resetTurnstile, hw, hm]

/-- C6 counterexample: the claim says the done action clears the form in
every state; but while a submission is in flight `handleDone` is a
no-op — the nonempty first name stays, no error/token/reset action
happens, and `onDone` is not even called. -/
theorem done_noop_while_submitting_counterexample :
    isSubmittingOf bareCfg submittingSt = true ∧
    submittingSt.FNAME = "Ann" ∧
    handleDone bareCfg true submittingSt = ⟨submittingSt, false, false⟩ := by
  refine ⟨by decide, by decide, by decide⟩

/-- C6 (amended): whenever no submission is in flight, the done action
clears all four field values and the whole error map and notifies the
host; it re-arms the verification widget — clearing the token via a
reset call — whenever a live widget handle is held and the widget API is
present; in uncontrolled mode it returns the internal success status to
idle, and in controlled mode it leaves the internal flags untouched
(host-owned flags are props and are never written). -/
theorem done_clears_form (cfg : Config) (tw : Bool) (st : State)
    (h : isSubmittingOf cfg st = false) :
    (handleDone cfg tw st).state.FNAME = "" ∧
    (handleDone cfg tw st).state.LNAME = "" ∧
    (handleDone cfg tw st).state.EMAIL = "" ∧
    (handleDone cfg tw st).state.honeypotValue = "" ∧
    (handleDone cfg tw st).state.errors = noErrors ∧
    (handleDone cfg tw st).onDoneCalled = true ∧
    (truthy st.widgetId = true → tw = true →
      (handleDone cfg tw st).state.turnstileToken = none ∧
      (handleDone cfg tw st).resetCalled = true) ∧
    (isControlled cfg = false →
      (handleDone cfg tw st).state.internalIsSuccess = false) ∧
    (isControlled cfg = true →
      (handleDone cfg tw st).state.internalIsSuccess
          = st.internalIsSuccess ∧
      (handleDone cfg tw st).state.internalIsSubmitting
          = st.internalIsSubmitting) := by
  rw [handleDone_not_submitting cfg tw st h]
  refine ⟨rfl, rfl, rfl, rfl, rfl, rfl, fun hwid htw => ?_,
    fun hm => ?_, fun hm => ?_⟩
  · simp [hwid, htw]
  · simp [hm]
  · simp [hm]

/-- C6 witness: in a concrete idle uncontrolled state the done action
clears the first name and the error map. -/
theorem done_clears_form_witness :
    isSubmittingOf bareCfg sampleSt = false ∧
    (handleDone bareCfg true sampleSt).state.FNAME = "" ∧
    (handleDone bareCfg true sampleSt).state.errors = noErrors :=
  ⟨by decide, (done_clears_form bareCfg true sampleSt (by decide)).1,
    (done_clears_form bareCfg true sampleSt (by decide)).2.2.2.2.1⟩

/-- C7: after a failed uncontrolled submission — non-2xx response or a
thrown network error — the submitting flag is cleared, the token is
cleared and the widget re-armed via a reset call (a live handle and the
widget global being present), the internal success flag stays false, the
toast is not shown, and no field-error entry is populated: validation
had passed, so the stored error map is empty. -/
theorem failed_uncontrolled_submit_resets (cfg : Config)
    (fr : FetchResult) (st : State)
    (hm : isControlled cfg = false)
    (hu : truthy cfg.actionUrl = true)
    (hv : (validateForm cfg st).1 = true)
    (hw : truthy st.widgetId = true)
    (hs : st.internalIsSuccess = false)
    (hf : fr = FetchResult.httpFail ∨ fr = FetchResult.netFail) :
    (handleSubmit cfg true fr st).state.internalIsSubmitting = false ∧
    (handleSubmit cfg true fr st).state.turnstileToken = none ∧
    (handleSubmit cfg true fr st).resetCalled = true ∧
    (handleSubmit cfg true fr st).state.internalIsSuccess = false ∧
    (handleSubmit cfg true fr st).state.errors = noErrors ∧
    (handleSubmit cfg true fr st).state.showToast = st.showToast ∧
    (handleSubmit cfg true fr st).onSubmitPayload = none := by
  have hvs := validateForm_pass_state cfg st hv
  rcases hf with rfl | rfl <;>
    simp [handleSubmit, hvs, hm, hu, resetTurnstile, hw, hs]

/-- C7 witness: a concrete valid uncontrolled submission that receives a
non-2xx response clears the token and calls reset. -/
theorem failed_uncontrolled_submit_resets_witness :
    (handleSubmit sampleCfg true FetchResult.httpFail
        sampleSt).state.turnstileToken = none ∧
    (handleSubmit sampleCfg true FetchResult.httpFail
        sampleSt).resetCalled = true :=
  ⟨(failed_uncontrolled_submit_resets sampleCfg FetchResult.httpFail
      sampleSt (by decide) (by decide) (by decide) (by decide) (by decide)
      (Or.inl rfl)).2.1,
    (failed_uncontrolled_submit_resets sampleCfg FetchResult.httpFail
      sampleSt (by decide) (by decide) (by decide) (by decide) (by decide)
      (Or.inl rfl)).2.2.1⟩

/-- C8 counterexample: the claim says failure and expiration are both
surfaced as a dedicated inline message; but on expiration the code only
clears the token — starting from a state with a held token and an empty
error map, the error map is completely unchanged and its verification
entry still empty afterwards. -/
theorem turnstile_expiry_silent_counterexample :
    sampleSt.turnstileToken = some "tok" ∧
    (handleTurnstileExpired sampleSt).turnstileToken = none ∧
    (handleTurnstileExpired sampleSt).errors = sampleSt.errors ∧
    (handleTurnstileExpired sampleSt).errors.turnstile = none := by
  refine ⟨by decide, by decide, by decide, by decide⟩

/-- C8 (amended): when the widget reports a verification failure, the
token is cleared and the dedicated inline verification message is set,
leaving every other error entry and all field values untouched (so other
field edits are not blocked); when the widget reports an expiration, the
token is cleared silently — the error map is not modified at all — and
fields are likewise untouched. -/
theorem turnstile_failure_expiry_transitions (st : State) :
    ((handleTurnstileError st).turnstileToken = none ∧
      (handleTurnstileError st).errors.turnstile =
        some "Verification failed. Please try again." ∧
      (handleTurnstileError st).errors.FNAME = st.errors.FNAME ∧
      (handleTurnstileError st).errors.LNAME = st.errors.LNAME ∧
      (handleTurnstileError st).errors.EMAIL = st.errors.EMAIL ∧
      (handleTurnstileError st).FNAME = st.FNAME ∧
      (handleTurnstileError st).LNAME = st.LNAME ∧
      (handleTurnstileError st).EMAIL = st.EMAIL ∧
      (handleTurnstileError st).honeypotValue = st.honeypotValue) ∧
    ((handleTurnstileExpired st).turnstileToken = none ∧
      (handleTurnstileExpired st).errors = st.errors ∧
      (handleTurnstileExpired st).FNAME = st.FNAME ∧
      (handleTurnstileExpired st).LNAME = st.LNAME ∧
      (handleTurnstileExpired st).EMAIL = st.EMAIL ∧
      (handleTurnstileExpired st).honeypotValue = st.honeypotValue) := by
  simp [handleTurnstileError, handleTurnstileExpired]

/-- Lookup distributes over append of association lists. -/
theorem getKey_append (k : String) (xs ys : List (String × String)) :
    getKey k (xs ++ ys) =
      match getKey k xs with
      | some v => some v
      | none => getKey k ys := by
  induction xs with
  | nil => simp [getKey]
  | cons p l ih =>
      obtain ⟨a, v⟩ := p
      by_cases ha : a = k
      · simp [getKey, ha]
      · simp [getKey, ha, ih]

/-- Looking up the key of a conditional entry yields the value exactly
when it is truthy. -/
theorem getKey_optEntry_self (k : String) (o : Option String) :
    getKey k (optEntry k o) = if truthy o then o else none := by
  cases o with
  | none => simp [optEntry, getKey, truthy]
  | some v =>
      by_cases hv : v.data.isEmpty = true <;>
        simp [optEntry, getKey, truthy, hv]

/-- A conditional entry holds nothing under any other key. -/
theorem getKey_optEntry_ne (k k2 : String) (o : Option String)
    (hne : k ≠ k2) :
    getKey k2 (optEntry k o) = none := by
  cases o with
  | none => simp [optEntry, getKey]
  | some v =>
      by_cases hv : v.data.isEmpty = true <;>
        simp [optEntry, getKey, hv, hne]

/-- Looking up a truthy honeypot name in its own entry yields the
honeypot value. -/
theorem getKey_dynEntry_self (h2 v : String) (hne : h2 ≠ "") :
    getKey h2 (dynEntry (some h2) v) = some v := by
  have hd : h2.data.isEmpty = false := by
    cases h2 with
    | mk l =>
        cases l with
        | nil => exact absurd rfl hne
        | cons a l2 => simp
  simp [dynEntry, getKey, hd]

/-- The honeypot entry holds nothing under any key other than the
configured name. -/
theorem getKey_dynEntry_ne (n : Option String) (v k2 : String)
    (hne : ∀ h2, n = some h2 → h2 ≠ k2) :
    getKey k2 (dynEntry n v) = none := by
  cases n with
  | none => simp [dynEntry, getKey]
  | some h2 =>
      by_cases hv : h2.data.isEmpty = true
      · simp [dynEntry, getKey, hv]
      · simp [dynEntry, getKey, hv, hne h2 rfl]

/-- Unpacking `honeypotNameSafe`: a configured name differs from each of
the five fixed keys. -/
theorem honeypotNameSafe_facts (cfg : Config) (h2 : String)
    (hs : honeypotNameSafe cfg = true)
    (hhp : cfg.honeypotFieldName = some h2) :
    h2 ≠ "EMAIL" ∧ h2 ≠ "FNAME" ∧ h2 ≠ "LNAME" ∧
      h2 ≠ "cf-turnstile-response" ∧ h2 ≠ "tags" := by
  unfold honeypotNameSafe at hs
  rw [hhp] at hs
  simp at hs
  exact hs

/-- C2: for every submission that passes validation, the outgoing
payload — `formData` handed to the host callback in controlled mode,
`submitData` POSTed in uncontrolled mode with a URL — always carries
`EMAIL`, `FNAME` and `LNAME` with the current field values; carries
`cf-turnstile-response` with the verification token exactly when a
truthy token is held; carries an entry keyed by the configured truthy
honeypot name with the honeypot value; and carries a static `tags`
entry only in the uncontrolled-with-URL payload (exactly when the tag
prop is truthy) — never in the controlled payload, and in uncontrolled
mode without a URL no payload leaves the component at all. Honeypot
names colliding with the fixed keys are excluded (`honeypotNameSafe`). -/
theorem outgoing_payload_shape (cfg : Config) (tw : Bool)
    (fr : FetchResult) (st : State)
    (hsafe : honeypotNameSafe cfg = true)
    (hv : (validateForm cfg st).1 = true) :
    (getKey "EMAIL" (formData cfg st) = some st.EMAIL ∧
      getKey "FNAME" (formData cfg st) = some st.FNAME ∧
      getKey "LNAME" (formData cfg st) = some st.LNAME) ∧
    (getKey "EMAIL" (submitData cfg st) = some st.EMAIL ∧
      getKey "FNAME" (submitData cfg st) = some st.FNAME ∧
      getKey "LNAME" (submitData cfg st) = some st.LNAME) ∧
    (getKey "cf-turnstile-response" (formData cfg st) =
        (if truthy st.turnstileToken then st.turnstileToken else none) ∧
      getKey "cf-turnstile-response" (submitData cfg st) =
        (if truthy st.turnstileToken then st.turnstileToken else none)) ∧
    (∀ h2, cfg.honeypotFieldName = some h2 → h2 ≠ "" →
      getKey h2 (formData cfg st) = some st.honeypotValue ∧
      getKey h2 (submitData cfg st) = some st.honeypotValue) ∧
    (getKey "tags" (formData cfg st) = none ∧
      getKey "tags" (submitData cfg st) =
        (if truthy cfg.tags then cfg.tags else none)) ∧
    (isControlled cfg = true →
      (handleSubmit cfg tw fr st).onSubmitPayload
          = some (formData cfg st) ∧
      (handleSubmit cfg tw fr st).fetchedBody = none) ∧
    (isControlled cfg = false → truthy cfg.actionUrl = true →
      (handleSubmit cfg tw fr st).fetchedBody
          = some (submitData cfg st) ∧
      (handleSubmit cfg tw fr st).onSubmitPayload = none) ∧
    (isControlled cfg = false → truthy cfg.actionUrl = false →
      (handleSubmit cfg tw fr st).fetchedBody = none ∧
      (handleSubmit cfg tw fr st).onSubmitPayload = none) := by
  have hvs := validateForm_pass_state cfg st hv
  have hdynT : getKey "cf-turnstile-response"
      (dynEntry cfg.honeypotFieldName st.honeypotValue) = none :=
    getKey_dynEntry_ne _ _ _ fun hh hhp =>
      (honeypotNameSafe_facts cfg hh hsafe hhp).2.2.2.1
  have hdynG : getKey "tags"
      (dynEntry cfg.honeypotFieldName st.honeypotValue) = none :=
    getKey_dynEntry_ne _ _ _ fun hh hhp =>
      (honeypotNameSafe_facts cfg hh hsafe hhp).2.2.2.2
  have hoptTne : getKey "tags"
      (optEntry "cf-turnstile-response" st.turnstileToken) = none :=
    getKey_optEntry_ne _ _ _ (by decide)
  have htokF : getKey "cf-turnstile-response" (formData cfg st) =
      (if truthy st.turnstileToken then st.turnstileToken else none) := by
    cases htok : st.turnstileToken with
    | none => simp [formData, getKey, optEntry, truthy, htok, hdynT]
    | some t =>
        by_cases hte : t.data.isEmpty = true <;>
          simp [formData, getKey, optEntry, truthy, htok, hte, hdynT]
  have htokS : getKey "cf-turnstile-response" (submitData cfg st) =
      (if truthy st.turnstileToken then st.turnstileToken else none) := by
    have htg : getKey "cf-turnstile-response"
        (optEntry "tags" cfg.tags) = none :=
      getKey_optEntry_ne _ _ _ (by decide)
    simp [submitData, getKey, getKey_append, htg, hdynT,
      getKey_optEntry_self]
    cases htok : st.turnstileToken with
    | none => simp [truthy]
    | some t =>
        by_cases hte : t.data.isEmpty = true <;> simp [truthy, hte]
  have htagF : getKey "tags" (formData cfg st) = none := by
    simp [formData, getKey, getKey_append, hoptTne, hdynG]
  have htagS : getKey "tags" (submitData cfg st) =
      (if truthy cfg.tags then cfg.tags else none) := by
    simp [submitData, getKey, getKey_append, hoptTne, hdynG,
      getKey_optEntry_self]
    cases htg : cfg.tags with
    | none => simp [truthy]
    | some tg =>
        by_cases hte : tg.data.isEmpty = true <;> simp [truthy, hte]
  refine ⟨?_, ?_, ⟨htokF, htokS⟩, ?_, ⟨htagF, htagS⟩, ?_, ?_, ?_⟩
  · refine ⟨?_, ?_, ?_⟩ <;> simp [formData, getKey]
  · refine ⟨?_, ?_, ?_⟩ <;> simp [submitData, getKey]
  · intro h2 hhp hne2
    obtain ⟨f1, f2, f3, f4, f5⟩ := honeypotNameSafe_facts cfg h2 hsafe hhp
    have hoptTok : getKey h2
        (optEntry "cf-turnstile-response" st.turnstileToken) = none :=
      getKey_optEntry_ne _ _ _ (Ne.symm f4)
    have hoptTag : getKey h2 (optEntry "tags" cfg.tags) = none :=
      getKey_optEntry_ne _ _ _ (Ne.symm f5)
    have hdynSelf : getKey h2
        (dynEntry cfg.honeypotFieldName st.honeypotValue)
          = some st.honeypotValue := by
      rw [hhp]
      exact getKey_dynEntry_self h2 st.honeypotValue hne2
    constructor
    · simp [formData, getKey, getKey_append, Ne.symm f1, Ne.symm f2,
        Ne.symm f3, hoptTok, hdynSelf]
    · simp [submitData, getKey, getKey_append, Ne.symm f1, Ne.symm f2,
        Ne.symm f3, hoptTok, hoptTag, hdynSelf]
  · intro hc
    simp [handleSubmit, hvs, hc]
  · intro hc hu
    cases fr <;> simp [handleSubmit, hvs, hc, hu]
  · intro hc hu
    simp [handleSubmit, hvs, hc, hu]

/-- C2 witness: the concrete uncontrolled configuration with tag,
honeypot and token yields the expected `submitData` lookups and POST
body. -/
theorem outgoing_payload_shape_witness :
    getKey "EMAIL" (submitData sampleCfg sampleSt)
        = some "user@example.com" ∧
    getKey "cf-turnstile-response" (submitData sampleCfg sampleSt)
        = some "tok" ∧
    getKey "tags" (submitData sampleCfg sampleSt) = some "11843736" ∧
    getKey "b_field" (submitData sampleCfg sampleSt) = some "" ∧
    (handleSubmit sampleCfg true FetchResult.success
        sampleSt).fetchedBody = some (submitData sampleCfg sampleSt) :=
  have h := outgoing_payload_shape sampleCfg true FetchResult.success
    sampleSt (by decide) (by decide)
  ⟨h.2.1.1, h.2.2.1.2, h.2.2.2.2.1.2,
    (h.2.2.2.1 "b_field" rfl (by decide)).2,
    (h.2.2.2.2.2.2.1 (by decide) (by decide)).1⟩

end Waitlist
